import Mathlib

/-!
Shallow embedding of `word_count_function.py` (AWSWordCountProject).

The source is a single AWS Lambda handler:
  * module init reads `os.environ['SNS_TOPIC_ARN']` (line 10);
  * `lambda_handler(event, context)` extracts `event['Records'][0]['s3']`
    `['bucket']['name']` and `['object']['key']` (lines 19-21), downloads the
    object (line 24), decodes it as UTF-8 (line 25), computes
    `len(file_content.split())` (line 28), publishes an SNS message
    (lines 33-37) and returns a 200 result (lines 39-42); any exception is
    printed as `f"Error processing file: {e}"` and re-raised (lines 44-46).

External services (S3 `get_object`, SNS `publish`) are modelled as an oracle
`World`; the handler is a pure function from the configuration, the oracle,
the event and the context to a result together with a trace of the outbound
calls it issued, the notifications actually delivered, and the log lines it
printed.
-/

namespace WordCount

/-- A byte of the fetched object body, as a natural number `< 256`. -/
abbrev Byte := Nat

/-- The parts of `event['Records'][i]` that the handler reads:
`['s3']['bucket']['name']` and `['s3']['object']['key']`.  A `none` field
models the whole family of malformed shapes (missing key, wrong nesting)
that make the corresponding Python subscription raise. -/
structure EventRecord where
  bucket_name : Option String
  object_key : Option String
deriving DecidableEq, Repr

/-- The triggering event: `event['Records']` as a list of records. -/
structure Event where
  records : List EventRecord
deriving DecidableEq, Repr

/-- Kinds of failure of one invocation, following the spec's taxonomy for the
exceptions the Python code can raise and re-raise: `KeyError`/`IndexError`
during extraction, a client error from `get_object`, `UnicodeDecodeError`,
and a client error from `publish`. -/
inductive ErrKind
  | malformedEvent
  | objectFetch
  | decodeError
  | publishError
deriving DecidableEq, Repr

/-- The re-raised exception: its kind and its `str(e)` rendering. -/
structure HandlerError where
  kind : ErrKind
  msg : String
deriving DecidableEq, Repr

/-- One `s3_client.get_object(Bucket=..., Key=...)` call. -/
structure FetchCall where
  bucket : String
  key : String
deriving DecidableEq, Repr

/-- One `sns_client.publish(TopicArn=..., Subject=..., Message=...)` call. -/
structure PublishCall where
  topicArn : String
  subject : String
  message : String
deriving DecidableEq, Repr

/-- The observable effects of one invocation: the fetch calls issued, the
publish calls issued, the notifications actually delivered (a publish call
that the service rejects delivers nothing), and the `print`ed log lines. -/
structure Trace where
  fetches : List FetchCall
  publishes : List PublishCall
  delivered : List PublishCall
  logs : List String
deriving DecidableEq, Repr

/-- The external world the handler talks to: what `get_object` returns for a
bucket/key pair (bytes, or the `str` of the raised client error), and whether
`publish` succeeds (or the `str` of its raised client error). -/
structure World where
  fetch : String → String → Except String (List Byte)
  publishResult : Except String Unit

/-- The result dict returned on success (lines 39-42). -/
structure HandlerResult where
  statusCode : Nat
  body : String
deriving DecidableEq, Repr

/-- Python whitespace for `str.split()` with no argument: the characters `c`
with `c.isspace()` true (ASCII whitespace, the C1 controls, and the Unicode
space separators). -/
def pyIsSpace (c : Char) : Bool :=
  let n := c.toNat
  decide ((0x09 ≤ n ∧ n ≤ 0x0D) ∨ (0x1C ≤ n ∧ n ≤ 0x1F) ∨ n = 0x20 ∨
    n = 0x85 ∨ n = 0xA0 ∨ n = 0x1680 ∨ (0x2000 ≤ n ∧ n ≤ 0x200A) ∨
    n = 0x2028 ∨ n = 0x2029 ∨ n = 0x202F ∨ n = 0x205F ∨ n = 0x3000)

/-- Auxiliary for `pySplit`: `acc` holds the reversed characters of the word
currently being read. -/
def splitWordsAux : List Char → List Char → List (List Char)
  | [], acc => if acc.isEmpty then [] else [acc.reverse]
  | c :: cs, acc =>
    if pyIsSpace c then
      if acc.isEmpty then splitWordsAux cs [] else acc.reverse :: splitWordsAux cs []
    else splitWordsAux cs (c :: acc)

/-- Python `s.split()` with no argument: maximal runs of non-whitespace
characters, with no empty fragments. -/
def pySplit (s : List Char) : List (List Char) := splitWordsAux s []

/-- Line 28: `word_count = len(file_content.split())`. -/
def word_count (s : List Char) : Nat := (pySplit s).length

/-- Spec-side definition, following the spec's words only: the number of
maximal contiguous non-whitespace runs.  `atBoundary` is true at the start of
the text and right after a whitespace character; a non-whitespace character
seen at a boundary starts a new run and is counted. -/
def runCount : Bool → List Char → Nat
  | _, [] => 0
  | atBoundary, c :: cs =>
    if pyIsSpace c then runCount true cs
    else (if atBoundary then 1 else 0) + runCount false cs

/-- Spec-side word count: the number of maximal contiguous non-whitespace
runs in the text. -/
def specCount (s : List Char) : Nat := runCount true s

/-- Is `b` a UTF-8 continuation byte (`0x80..0xBF`)? -/
def isCont (b : Byte) : Bool := decide (0x80 ≤ b ∧ b < 0xC0)

/-- Strict UTF-8 decoding, as Python's `bytes.decode('utf-8')`: rejects stray
or missing continuation bytes, overlong encodings, surrogate code points and
code points beyond `U+10FFFF`.  Returns `none` exactly when Python raises
`UnicodeDecodeError`. -/
def utf8Decode : List Byte → Option (List Char)
  | [] => some []
  | b :: rest =>
    if b < 0x80 then
      match utf8Decode rest with
      | some cs => some (Char.ofNat b :: cs)
      | none => none
    else if b < 0xC2 then none
    else if b < 0xE0 then
      match rest with
      | b1 :: rest1 =>
        if isCont b1 then
          match utf8Decode rest1 with
          | some cs => some (Char.ofNat ((b - 0xC0) * 0x40 + (b1 - 0x80)) :: cs)
          | none => none
        else none
      | [] => none
    else if b < 0xF0 then
      match rest with
      | b1 :: b2 :: rest2 =>
        if isCont b1 && isCont b2 then
          let cp := (b - 0xE0) * 0x1000 + (b1 - 0x80) * 0x40 + (b2 - 0x80)
          if 0x800 ≤ cp ∧ ¬(0xD800 ≤ cp ∧ cp ≤ 0xDFFF) then
            match utf8Decode rest2 with
            | some cs => some (Char.ofNat cp :: cs)
            | none => none
          else none
        else none
      | _ => none
    else if b < 0xF5 then
      match rest with
      | b1 :: b2 :: b3 :: rest3 =>
        if isCont b1 && isCont b2 && isCont b3 then
          let cp := (b - 0xF0) * 0x40000 + (b1 - 0x80) * 0x1000 +
            (b2 - 0x80) * 0x40 + (b3 - 0x80)
          if 0x10000 ≤ cp ∧ cp ≤ 0x10FFFF then
            match utf8Decode rest3 with
            | some cs => some (Char.ofNat cp :: cs)
            | none => none
          else none
        else none
      | _ => none
    else none

/-- Lowercase hexadecimal digit. -/
def hexDigit (n : Nat) : Char :=
  if n < 10 then Char.ofNat (48 + n) else Char.ofNat (87 + n)

/-- Four lowercase hex digits, as in a JSON `\uXXXX` escape. -/
def hex4 (n : Nat) : String :=
  String.mk [hexDigit (n / 4096 % 16), hexDigit (n / 256 % 16),
    hexDigit (n / 16 % 16), hexDigit (n % 16)]

/-- How Python's `json.dumps` (default `ensure_ascii=True`) renders one
character of a string: `"` and `\` are backslash-escaped, the common control
characters get their short escapes, every other character outside
`0x20..0x7E` becomes `\uXXXX` (a surrogate pair above `U+FFFF`). -/
def jsonEscapeChar (c : Char) : String :=
  if c = '"' then "\\\""
  else if c = '\\' then "\\\\"
  else if c = '\n' then "\\n"
  else if c = '\r' then "\\r"
  else if c = '\t' then "\\t"
  else if c = Char.ofNat 0x08 then "\\b"
  else if c = Char.ofNat 0x0C then "\\f"
  else if c.toNat < 0x20 then "\\u" ++ hex4 c.toNat
  else if c.toNat ≤ 0x7E then String.mk [c]
  else if c.toNat < 0x10000 then "\\u" ++ hex4 c.toNat
  else
    let v := c.toNat - 0x10000
    "\\u" ++ hex4 (0xD800 + v / 0x400) ++ "\\u" ++ hex4 (0xDC00 + v % 0x400)

/-- Python `json.dumps` applied to a string. -/
def jsonDumps (s : String) : String :=
  "\"" ++ String.join (s.toList.map jsonEscapeChar) ++ "\""

/-- Line 45: the log line `print`ed for an exception `e`. -/
def logLine (e : HandlerError) : String := "Error processing file: " ++ e.msg

/-- `str(e)` of the `UnicodeDecodeError` raised by `bytes.decode('utf-8')`.
The byte value and position that Python interpolates into the message are
not modelled; no claim depends on them. -/
def decodeErrMsg : String := "'utf-8' codec can't decode bytes"

/-- The handler, lines 12-46.  `topicArn` is the module-level
`SNS_TOPIC_ARN`; `w` is the external world; `context` is the unused second
parameter.  Returns the Python outcome (the returned dict, or the re-raised
exception) paired with the trace of outbound calls and log lines. -/
def lambda_handler {Ctx : Type} (topicArn : String) (w : World)
    (event : Event) (context : Ctx) :
    Except HandlerError HandlerResult × Trace :=
  match event.records.head? with
  | none =>
    let e : HandlerError := ⟨.malformedEvent, "list index out of range"⟩
    (.error e, ⟨[], [], [], [logLine e]⟩)
  | some r =>
    match r.bucket_name with
    | none =>
      let e : HandlerError := ⟨.malformedEvent, "'name'"⟩
      (.error e, ⟨[], [], [], [logLine e]⟩)
    | some bucket_name =>
      match r.object_key with
      | none =>
        let e : HandlerError := ⟨.malformedEvent, "'key'"⟩
        (.error e, ⟨[], [], [], [logLine e]⟩)
      | some file_name =>
        let fc : FetchCall := ⟨bucket_name, file_name⟩
        match w.fetch bucket_name file_name with
        | .error msg =>
          let e : HandlerError := ⟨.objectFetch, msg⟩
          (.error e, ⟨[fc], [], [], [logLine e]⟩)
        | .ok bytes =>
          match utf8Decode bytes with
          | none =>
            let e : HandlerError := ⟨.decodeError, decodeErrMsg⟩
            (.error e, ⟨[fc], [], [], [logLine e]⟩)
          | some file_content =>
            let wc := word_count file_content
            let subject := "Word Count Result"
            let message := "The word count in the " ++ file_name ++
              " file is " ++ toString wc ++ "."
            let pc : PublishCall := ⟨topicArn, subject, message⟩
            match w.publishResult with
            | .error msg =>
              let e : HandlerError := ⟨.publishError, msg⟩
              (.error e, ⟨[fc], [pc], [], [logLine e]⟩)
            | .ok _ =>
              (.ok ⟨200, jsonDumps ("Successfully processed " ++ file_name ++ ".")⟩,
                ⟨[fc], [pc], [pc], []⟩)

/-- Line 10: `SNS_TOPIC_ARN = os.environ['SNS_TOPIC_ARN']`, run once at
module import, before any invocation.  A missing variable raises `KeyError`
(its `str` is the quoted key), so no configuration value is ever produced
and `lambda_handler` is never reached. -/
def moduleInit (env : String → Option String) : Except String String :=
  match env "SNS_TOPIC_ARN" with
  | some v => .ok v
  | none => .error "'SNS_TOPIC_ARN'"

/-- Does `hay` start with `needle`?  (First argument is the needle.) -/
def startsWithChars : List Char → List Char → Bool
  | [], _ => true
  | _ :: _, [] => false
  | a :: as, b :: bs => a == b && startsWithChars as bs

/-- Does `hay` contain `needle` as a contiguous substring? -/
def containsChars (needle : List Char) : List Char → Bool
  | [] => startsWithChars needle []
  | b :: bs => startsWithChars needle (b :: bs) || containsChars needle bs

/-- A world in which bucket `"b"` holds object `"f.txt"` with the bytes of
`"a b c"`, and publishing succeeds. -/
def demoWorld : World :=
  ⟨fun b k => if b = "b" ∧ k = "f.txt" then .ok [0x61, 0x20, 0x62, 0x20, 0x63]
    else .error "NoSuchKey", .ok ()⟩

/-- The event `{bucket: "b", key: "f.txt"}` of the spec's worked example. -/
def demoEvent : Event := ⟨[⟨some "b", some "f.txt"⟩]⟩

/-- The demo event with an extra trailing record, which lines 19-21 never
read. -/
def demoEventExtra : Event :=
  ⟨[⟨some "b", some "f.txt"⟩, ⟨some "other", some "ignored"⟩]⟩

/-- A world whose storage read always fails with an access-denied client
error (`str(e)` of the raised `ClientError`). -/
def failWorld : World :=
  ⟨fun _ _ => .error
    "An error occurred (AccessDenied) when calling the GetObject operation: Access Denied",
   .ok ()⟩

/-- A world whose storage read returns a byte that no UTF-8 sequence starts
with. -/
def badBytesWorld : World := ⟨fun _ _ => .ok [0xFF], .ok ()⟩

/-- A world in which bucket `"docs"` holds `"a.txt"` containing
`"hello world"`, and publishing succeeds. -/
def docsWorld : World :=
  ⟨fun b k => if b = "docs" ∧ k = "a.txt" then
      .ok [0x68, 0x65, 0x6C, 0x6C, 0x6F, 0x20, 0x77, 0x6F, 0x72, 0x6C, 0x64]
    else .error "NoSuchKey", .ok ()⟩

/-- The event `{bucket: "docs", key: "a.txt"}`. -/
def docsEvent : Event := ⟨[⟨some "docs", some "a.txt"⟩]⟩

/-- An event whose first record has a bucket name but no object key, so that
line 21 raises `KeyError('key')`. -/
def keylessEvent : Event := ⟨[⟨some "mybucket", none⟩]⟩

/-- An event whose first record has no bucket name. -/
def bucketlessEvent : Event := ⟨[⟨none, some "x.txt"⟩]⟩

/-!  Theorems. -/

/-- Every invocation ends in exactly one of two terminal shapes: a failure
that logs the one line of line 45 and delivers nothing, or a success that
logs nothing and delivers exactly one notification.  Shared case analysis of
the handler. -/
theorem handler_cases (Ctx : Type) (t : String) (w : World) (e : Event) (c : Ctx) :
    (∃ err tr, lambda_handler t w e c = (Except.error err, tr) ∧
      tr.logs = [logLine err] ∧ tr.delivered = []) ∨
    (∃ res tr, lambda_handler t w e c = (Except.ok res, tr) ∧
      tr.logs = [] ∧ tr.delivered.length = 1) := by
  unfold lambda_handler
  repeat' split
  all_goals first
    | exact Or.inl ⟨_, _, rfl, rfl, rfl⟩
    | exact Or.inr ⟨_, _, rfl, rfl, rfl⟩

/-- Key accumulator lemma: the number of words `splitWordsAux` still
produces, given the partially read word `acc`. -/
theorem splitWordsAux_length (cs : List Char) :
    ∀ acc : List Char,
      (splitWordsAux cs acc).length =
        (if acc.isEmpty then 0 else 1) + runCount acc.isEmpty cs := by
  induction cs with
  | nil =>
    intro acc
    cases hacc : acc.isEmpty <;> simp [splitWordsAux, runCount, hacc]
  | cons c cs ih =>
    intro acc
    cases hc : pyIsSpace c
    · cases hacc : acc.isEmpty <;>
        simp [splitWordsAux, runCount, hc, hacc, ih (c :: acc)] <;> omega
    · cases hacc : acc.isEmpty <;>
        simp [splitWordsAux, runCount, hc, hacc, ih []] <;> omega

/-- A text of whitespace characters only contains no run. -/
theorem runCount_all_space :
    ∀ (s : List Char), (∀ c ∈ s, pyIsSpace c = true) → ∀ b, runCount b s = 0 := by
  intro s
  induction s with
  | nil => intro _ b; rfl
  | cons c cs ih =>
    intro h b
    have hc : pyIsSpace c = true := h c (List.mem_cons_self c cs)
    simp [runCount, hc, ih (fun x hx => h x (List.mem_cons_of_mem c hx)) true]

/-- Claim C1: for every decoded text, the handler's word count
(`len(file_content.split())`, line 28) equals the number of maximal
contiguous non-whitespace runs in the text; in particular it is `0` for the
empty text and for text consisting only of whitespace. -/
theorem c1_word_count_matches_spec :
    (∀ s : List Char, word_count s = specCount s) ∧
    word_count [] = 0 ∧
    (∀ s : List Char, (∀ c ∈ s, pyIsSpace c = true) → word_count s = 0) := by
  have key : ∀ s : List Char, word_count s = specCount s := by
    intro s
    have h := splitWordsAux_length s []
    simpa [word_count, pySplit, specCount] using h
  refine ⟨key, rfl, fun s hs => ?_⟩
  rw [key s]
  exact runCount_all_space s hs true

/-- Witness for C1 at a concrete whitespace-only text. -/
theorem c1_witness : word_count [' ', '\t', '\n'] = 0 :=
  c1_word_count_matches_spec.2.2 [' ', '\t', '\n'] (by decide)

/-- Claim C2: on the happy path the published notification has subject
exactly "Word Count Result" and body exactly
"The word count in the {key} file is {count}."; in particular for bucket
"b", key "f.txt" and content "a b c" the body is
"The word count in the f.txt file is 3.". -/
theorem c2_publish_format :
    (∀ (Ctx : Type) (t : String) (w : World) (e : Event) (c : Ctx)
      (r : EventRecord) (b k : String) (bytes : List Byte) (text : List Char),
      e.records.head? = some r → r.bucket_name = some b →
      r.object_key = some k → w.fetch b k = .ok bytes →
      utf8Decode bytes = some text → w.publishResult = .ok () →
      (lambda_handler t w e c).2.delivered =
        [⟨t, "Word Count Result",
          "The word count in the " ++ k ++ " file is " ++
            toString (word_count text) ++ "."⟩]) ∧
    (lambda_handler "topic" demoWorld demoEvent ()).2.delivered =
      [⟨"topic", "Word Count Result", "The word count in the f.txt file is 3."⟩] := by
  constructor
  · intro Ctx t w e c r b k bytes text hr hb hk hf hd hp
    unfold lambda_handler
    simp [hr, hb, hk, hf, hd, hp]
  · decide

/-- Witness for C2 on a second concrete happy path (content "hello world",
count 2). -/
theorem c2_witness :
    (lambda_handler "arn:topic" docsWorld docsEvent ()).2.delivered =
      [⟨"arn:topic", "Word Count Result",
        "The word count in the a.txt file is 2."⟩] :=
  c2_publish_format.1 Unit "arn:topic" docsWorld docsEvent ()
    ⟨some "docs", some "a.txt"⟩ "docs" "a.txt"
    [0x68, 0x65, 0x6C, 0x6C, 0x6F, 0x20, 0x77, 0x6F, 0x72, 0x6C, 0x64]
    "hello world".toList rfl rfl rfl rfl rfl rfl

/-- Claim C3: every invocation either completes all steps and delivers
exactly one notification, or delivers none and returns an error to the
caller; and the handler keeps no state across invocations, so running it
twice on the same event delivers two notifications in total. -/
theorem c3_all_or_nothing :
    (∀ (Ctx : Type) (t : String) (w : World) (e : Event) (c : Ctx),
      (∃ res tr, lambda_handler t w e c = (Except.ok res, tr) ∧
        tr.delivered.length = 1) ∨
      (∃ err tr, lambda_handler t w e c = (Except.error err, tr) ∧
        tr.delivered = [])) ∧
    (∀ (Ctx : Type) (t : String) (w : World) (e : Event) (c : Ctx)
      (res : HandlerResult) (tr : Trace),
      lambda_handler t w e c = (Except.ok res, tr) →
      ((lambda_handler t w e c).2.delivered ++
        (lambda_handler t w e c).2.delivered).length = 2) := by
  constructor
  · intro Ctx t w e c
    rcases handler_cases Ctx t w e c with ⟨err, tr, heq, _, hd⟩ | ⟨res, tr, heq, _, hd⟩
    · exact Or.inr ⟨err, tr, heq, hd⟩
    · exact Or.inl ⟨res, tr, heq, hd⟩
  · intro Ctx t w e c res tr heq
    rcases handler_cases Ctx t w e c with ⟨err, tr2, heq2, _, _⟩ | ⟨res2, tr2, heq2, _, hd⟩
    · rw [heq] at heq2
      have hcontra := congrArg Prod.fst heq2
      simp at hcontra
    · rw [heq2]
      simp [hd]

/-- Witness for C3: the demo invocation succeeds, and two runs deliver two
notifications. -/
theorem c3_witness :
    ((lambda_handler "topic" demoWorld demoEvent ()).2.delivered ++
      (lambda_handler "topic" demoWorld demoEvent ()).2.delivered).length = 2 :=
  c3_all_or_nothing.2 Unit "topic" demoWorld demoEvent ()
    ⟨200, "\"Successfully processed f.txt.\""⟩
    ⟨[⟨"b", "f.txt"⟩],
      [⟨"topic", "Word Count Result", "The word count in the f.txt file is 3."⟩],
      [⟨"topic", "Word Count Result", "The word count in the f.txt file is 3."⟩],
      []⟩ (by rfl)

/-- Claim C4: when the storage fetch fails (line 24 raises), no publish call
is issued, nothing is delivered, and the invocation fails with the
object-fetch error carrying the client error's description. -/
theorem c4_fetch_failure_no_publish (Ctx : Type) (t : String) (w : World)
    (e : Event) (c : Ctx) (r : EventRecord) (b k msg : String)
    (hr : e.records.head? = some r) (hb : r.bucket_name = some b)
    (hk : r.object_key = some k) (hf : w.fetch b k = .error msg) :
    (lambda_handler t w e c).1 = .error ⟨.objectFetch, msg⟩ ∧
    (lambda_handler t w e c).2.publishes = [] ∧
    (lambda_handler t w e c).2.delivered = [] := by
  unfold lambda_handler
  simp [hr, hb, hk, hf]

/-- Witness for C4: an access-denied fetch on the demo event. -/
theorem c4_witness :
    (lambda_handler "topic" failWorld demoEvent ()).1 =
      .error ⟨.objectFetch,
        "An error occurred (AccessDenied) when calling the GetObject operation: Access Denied"⟩ ∧
    (lambda_handler "topic" failWorld demoEvent ()).2.publishes = [] ∧
    (lambda_handler "topic" failWorld demoEvent ()).2.delivered = [] :=
  c4_fetch_failure_no_publish Unit "topic" failWorld demoEvent ()
    ⟨some "b", some "f.txt"⟩ "b" "f.txt"
    "An error occurred (AccessDenied) when calling the GetObject operation: Access Denied"
    rfl rfl rfl rfl

/-- Claim C5: when the first record is missing (empty `Records`) or lacks
the bucket-name or object-key field, no fetch call and no publish call are
issued — no side effect at all — and the invocation fails with the
malformed-event error. -/
theorem c5_malformed_event_no_side_effects (Ctx : Type) (t : String)
    (w : World) (e : Event) (c : Ctx)
    (h : e.records.head? = none ∨
      ∃ r, e.records.head? = some r ∧
        (r.bucket_name = none ∨ r.object_key = none)) :
    (lambda_handler t w e c).2.fetches = [] ∧
    (lambda_handler t w e c).2.publishes = [] ∧
    (lambda_handler t w e c).2.delivered = [] ∧
    ∃ msg, (lambda_handler t w e c).1 = .error ⟨.malformedEvent, msg⟩ := by
  rcases h with h | ⟨r, hr, h⟩
  · unfold lambda_handler
    simp [h]
  · rcases h with hb | hk
    · unfold lambda_handler
      simp [hr, hb]
    · rcases hbn : r.bucket_name with _ | b
      · unfold lambda_handler
        simp [hr, hbn]
      · unfold lambda_handler
        simp [hr, hbn, hk]

/-- Witness for C5: a record with no bucket name. -/
theorem c5_witness :
    (lambda_handler "topic" demoWorld bucketlessEvent ()).2.fetches = [] ∧
    (lambda_handler "topic" demoWorld bucketlessEvent ()).2.publishes = [] ∧
    (lambda_handler "topic" demoWorld bucketlessEvent ()).2.delivered = [] ∧
    ∃ msg, (lambda_handler "topic" demoWorld bucketlessEvent ()).1 =
      .error ⟨.malformedEvent, msg⟩ :=
  c5_malformed_event_no_side_effects Unit "topic" demoWorld bucketlessEvent ()
    (Or.inr ⟨⟨none, some "x.txt"⟩, rfl, Or.inl rfl⟩)

/-- Claim C6: when the fetched bytes are not valid UTF-8 the decode of
line 25 raises, the invocation terminates with the distinct decode-error
kind, and no publish call is issued. -/
theorem c6_invalid_utf8_decode_error (Ctx : Type) (t : String) (w : World)
    (e : Event) (c : Ctx) (r : EventRecord) (b k : String) (bytes : List Byte)
    (hr : e.records.head? = some r) (hb : r.bucket_name = some b)
    (hk : r.object_key = some k) (hf : w.fetch b k = .ok bytes)
    (hd : utf8Decode bytes = none) :
    (lambda_handler t w e c).1 = .error ⟨.decodeError, decodeErrMsg⟩ ∧
    (lambda_handler t w e c).2.publishes = [] ∧
    (lambda_handler t w e c).2.delivered = [] := by
  unfold lambda_handler
  simp [hr, hb, hk, hf, hd]

/-- Witness for C6: the byte `0xFF` starts no UTF-8 sequence. -/
theorem c6_witness :
    (lambda_handler "topic" badBytesWorld demoEvent ()).1 =
      .error ⟨.decodeError, decodeErrMsg⟩ ∧
    (lambda_handler "topic" badBytesWorld demoEvent ()).2.publishes = [] ∧
    (lambda_handler "topic" badBytesWorld demoEvent ()).2.delivered = [] :=
  c6_invalid_utf8_decode_error Unit "topic" badBytesWorld demoEvent ()
    ⟨some "b", some "f.txt"⟩ "b" "f.txt" [0xFF] rfl rfl rfl rfl rfl

/-- Claim C7: every successful invocation returns status code 200 and the
JSON-encoded confirmation string "Successfully processed {key}." naming the
processed object key (lines 39-42). -/
theorem c7_success_result (Ctx : Type) (t : String) (w : World) (e : Event)
    (c : Ctx) (r : EventRecord) (b k : String) (res : HandlerResult)
    (hr : e.records.head? = some r) (hb : r.bucket_name = some b)
    (hk : r.object_key = some k)
    (hok : (lambda_handler t w e c).1 = .ok res) :
    res.statusCode = 200 ∧
    res.body = jsonDumps ("Successfully processed " ++ k ++ ".") := by
  unfold lambda_handler at hok
  simp only [hr, hb, hk] at hok
  rcases hf : w.fetch b k with msg | bytes <;> simp only [hf] at hok
  · simp at hok
  rcases hd : utf8Decode bytes with _ | text <;> simp only [hd] at hok
  · simp at hok
  rcases hp : w.publishResult with msg | u <;> simp only [hp] at hok
  · simp at hok
  simp at hok
  subst hok
  exact ⟨rfl, rfl⟩

/-- Witness for C7 on the demo happy path. -/
theorem c7_witness :
    (⟨200, "\"Successfully processed f.txt.\""⟩ : HandlerResult).statusCode = 200 ∧
    (⟨200, "\"Successfully processed f.txt.\""⟩ : HandlerResult).body =
      jsonDumps ("Successfully processed " ++ "f.txt" ++ ".") :=
  c7_success_result Unit "topic" demoWorld demoEvent ()
    ⟨some "b", some "f.txt"⟩ "b" "f.txt"
    ⟨200, "\"Successfully processed f.txt.\""⟩ rfl rfl rfl rfl

/-- Counterexample to claim C8 as stated: the invocation on an event whose
first record names bucket "mybucket" but has no object key fails, and the
single line it logs — line 45's `print` of the raised `KeyError` — is
"Error processing file: 'key'", which does not contain the container id
"mybucket" at all, so the log does not carry enough context to identify
the failing object. -/
theorem c8_counterexample :
    (lambda_handler "topic" demoWorld keylessEvent ()).1 =
      .error ⟨.malformedEvent, "'key'"⟩ ∧
    (lambda_handler "topic" demoWorld keylessEvent ()).2.logs =
      ["Error processing file: 'key'"] ∧
    containsChars "mybucket".toList "Error processing file: 'key'".toList = false :=
  ⟨rfl, rfl, by decide⟩

/-- Claim C8 (amended): every failing invocation logs exactly one line,
"Error processing file: " followed by the error's own description — which
need not name the container id or the object key — and then re-raises that
same error to the caller; a successful invocation logs nothing.  No error is
silently swallowed and no retry is performed. -/
theorem c8_error_logged_then_reraised (Ctx : Type) (t : String) (w : World)
    (e : Event) (c : Ctx) :
    (∀ err tr, lambda_handler t w e c = (Except.error err, tr) →
      tr.logs = [logLine err]) ∧
    (∀ res tr, lambda_handler t w e c = (Except.ok res, tr) →
      tr.logs = []) := by
  rcases handler_cases Ctx t w e c with ⟨err, tr, heq, hlog, _⟩ | ⟨res, tr, heq, hlog, _⟩
  · constructor
    · intro err2 tr2 h2
      rw [heq] at h2
      injection h2 with hA hB
      injection hA with hE
      subst hE; subst hB
      exact hlog
    · intro res2 tr2 h2
      rw [heq] at h2
      injection h2 with hA hB
      exact absurd hA (by simp)
  · constructor
    · intro err2 tr2 h2
      rw [heq] at h2
      injection h2 with hA hB
      exact absurd hA (by simp)
    · intro res2 tr2 h2
      rw [heq] at h2
      injection h2 with hA hB
      subst hB
      exact hlog

/-- Witness for C8 (amended): the access-denied invocation logs exactly the
one formatted line. -/
theorem c8_witness :
    Trace.logs ⟨[⟨"b", "f.txt"⟩], [], [],
        ["Error processing file: An error occurred (AccessDenied) when calling the GetObject operation: Access Denied"]⟩ =
      [logLine ⟨.objectFetch,
        "An error occurred (AccessDenied) when calling the GetObject operation: Access Denied"⟩] :=
  (c8_error_logged_then_reraised Unit "topic" failWorld demoEvent ()).1
    ⟨.objectFetch,
      "An error occurred (AccessDenied) when calling the GetObject operation: Access Denied"⟩
    ⟨[⟨"b", "f.txt"⟩], [], [],
      ["Error processing file: An error occurred (AccessDenied) when calling the GetObject operation: Access Denied"]⟩
    rfl

/-- Claim C9: when the environment lacks `SNS_TOPIC_ARN`, line 10 raises at
module import — before any event is processed — so initialization yields an
error and never produces a configuration under which `lambda_handler` could
be invoked. -/
theorem c9_missing_topic_is_fatal (env : String → Option String)
    (h : env "SNS_TOPIC_ARN" = none) :
    moduleInit env = .error "'SNS_TOPIC_ARN'" ∧
    ∀ cfg, moduleInit env ≠ .ok cfg := by
  unfold moduleInit
  rw [h]
  exact ⟨rfl, fun cfg hc => by simp at hc⟩

/-- Witness for C9 on the empty environment. -/
theorem c9_witness :
    moduleInit (fun _ => none) = .error "'SNS_TOPIC_ARN'" :=
  (c9_missing_topic_is_fatal (fun _ => none) rfl).1

/-- Claim C10: the handler's entire observable behaviour — the fetch
arguments, the publish call, the delivered notification, the logs and the
returned value — depends only on the first record's bucket name and object
key (and on the world); records beyond the first and the context argument
(of any type) have no effect. -/
theorem c10_first_record_only (CtxA CtxB : Type) (t : String) (w : World)
    (e1 e2 : Event) (c1 : CtxA) (c2 : CtxB) (r1 r2 : EventRecord)
    (h1 : e1.records.head? = some r1) (h2 : e2.records.head? = some r2)
    (hb : r1.bucket_name = r2.bucket_name)
    (hk : r1.object_key = r2.object_key) :
    lambda_handler t w e1 c1 = lambda_handler t w e2 c2 := by
  unfold lambda_handler
  simp only [h1, h2]
  rw [hb, hk]

/-- Witness for C10: adding a second record and changing the context type
and value leaves the run unchanged. -/
theorem c10_witness :
    lambda_handler "topic" demoWorld demoEvent () =
      lambda_handler "topic" demoWorld demoEventExtra (0 : Nat) :=
  c10_first_record_only Unit Nat "topic" demoWorld demoEvent demoEventExtra
    () 0 ⟨some "b", some "f.txt"⟩ ⟨some "b", some "f.txt"⟩ rfl rfl rfl rfl

end WordCount
